import Mathlib

/-!
Verification of the Tai Chi AI rehabilitation core against its
natural-language specification.

The Lean definitions below are a shallow embedding of the Python sources
`src/tai_chi_ai/core/ai_gents.py` and `src/tai_chi_ai/data/models.py`:
pure Python functions become Lean functions, the two stateful logs
(the Progress Analyzer's session log and the Safety Monitor's trailing
window) become explicit state passing, machine integers become `Int`/`Nat`,
pandas column means become rational means, and the one fallible operation
(the per-body-part knowledge-base lookup, which raises `KeyError` in
Python) returns `Option`.

The Program Coordinator (`TaiChiProgram` in `core/program_manager.py`) is
imported by `main.py` but its source file is not part of the repository;
its week/phase state machine is modelled from the specification and the
modelling is marked as such on its definitions.
-/

namespace TaiChiAI

/-! ## Data model (`data/models.py`) -/

/-- `BodyPart` enumeration from `data/models.py`. -/
inductive BodyPart
  | left_shoulder
  | right_shoulder
  | left_calf
  | lower_back
  | neck
  | right_calf
  | upper_back
  | hips
deriving DecidableEq, Repr

/-- `InjurySeverity` enumeration from `data/models.py`. -/
inductive InjurySeverity
  | mild
  | moderate
  | severe
deriving DecidableEq, Repr

/-- `WorkoutPhase` enumeration from `data/models.py`. -/
inductive WorkoutPhase
  | foundation
  | building
  | integration
  | mastery
deriving DecidableEq, Repr

/-- The `.value` string of an `InjurySeverity` member (it is a `str` enum). -/
def severityValue : InjurySeverity → String
  | .mild => "mild"
  | .moderate => "moderate"
  | .severe => "severe"

/-- An injury profile: the `Dict[BodyPart, InjurySeverity]` passed to the
agents, in iteration (insertion) order. -/
def InjuryProfile := List (BodyPart × InjurySeverity)

/-! ## String containment

Python's `needle in haystack` substring test, embedded on the character
lists of the two strings: some suffix of the haystack starts with the
needle. -/

/-- Python's substring operator `needle in hay`. -/
def containsSubstr (hay needle : String) : Bool :=
  hay.data.tails.any (fun t => needle.data.isPrefixOf t)

/-- Python's `str.lower()`, on the character list (the library
`String.map` does not reduce inside the kernel). -/
def lowerAscii (s : String) : String :=
  ⟨s.data.map Char.toLower⟩

/-! ## Knowledge base (`AIAgent._load_injury_modifications`) -/

/-- One entry of the per-body-part injury-modification table: the
`avoid` / `modify` / `compensatory` lists. -/
structure ModEntry where
  avoid : List String
  modifyList : List String
  compensatory : List String
deriving DecidableEq, Repr

/-- `AIAgent._load_injury_modifications`: the per-body-part table.  Only
four of the eight `BodyPart` members have an entry; looking up any other
body part raises `KeyError` in the source, embedded here as `none`. -/
def injury_modifications : BodyPart → Option ModEntry
  | .left_shoulder => some
      { avoid := ["high arm raises", "shoulder rotations", "weight bearing on arms"]
        modifyList := ["keep arms below shoulder height", "reduce range of motion",
          "focus on lower body"]
        compensatory := ["leg strength", "core stability", "breathing techniques"] }
  | .right_shoulder => some
      { avoid := ["high arm raises", "shoulder rotations", "weight bearing on arms"]
        modifyList := ["keep arms below shoulder height", "reduce range of motion",
          "focus on lower body"]
        compensatory := ["leg strength", "core stability", "breathing techniques"] }
  | .left_calf => some
      { avoid := ["deep stances", "jumping", "prolonged standing"]
        modifyList := ["shorter stances", "chair support", "reduced duration"]
        compensatory := ["upper body flow", "seated practice", "breathing focus"] }
  | .lower_back => some
      { avoid := ["forward bends", "twisting", "arching"]
        modifyList := ["maintain neutral spine", "bend knees", "use support"]
        compensatory := ["gentle core engagement", "postural awareness",
          "gradual progression"] }
  | _ => none

/-! ## Restriction summary (`TaiChiCoachAgent.analyze_injury_impact`) -/

/-- The `impact_assessment` dictionary built by `analyze_injury_impact`. -/
structure ImpactAssessment where
  restrictions : List String
  modifications : List String
  focus_areas : List String
  compensatory_strategies : List String
  risk_factors : List String
  rehabilitation_focus : List String
deriving DecidableEq, Repr

/-- The empty `impact_assessment` the source initialises before its loop. -/
def emptyImpact : ImpactAssessment :=
  { restrictions := [], modifications := [], focus_areas := []
    compensatory_strategies := [], risk_factors := [], rehabilitation_focus := [] }

/-- Loop body of `analyze_injury_impact` over the profile entries.  The
unguarded dictionary access `knowledge_base["injury_modifications"][body_part]`
raises `KeyError` for the four body parts without a table entry; that
failure is `none` here and aborts the analysis exactly as the exception
aborts the Python call. -/
def analyze_injury_impact_aux :
    ImpactAssessment → List (BodyPart × InjurySeverity) → Option ImpactAssessment
  | acc, [] => some acc
  | acc, (body_part, severity) :: rest =>
    match injury_modifications body_part with
    | none => none
    | some m =>
      let acc :=
        { acc with
          restrictions := acc.restrictions ++
            m.avoid.map (fun r => r ++ " (" ++ severityValue severity ++ ")")
          modifications := acc.modifications ++ m.modifyList
          compensatory_strategies := acc.compensatory_strategies ++ m.compensatory }
      let acc :=
        if body_part = .left_shoulder ∨ body_part = .right_shoulder then
          { acc with
            focus_areas := acc.focus_areas ++
              ["lower body stability and rooting",
               "deep diaphragmatic breathing",
               "mental visualization of arm movements"]
            rehabilitation_focus := acc.rehabilitation_focus ++
              ["gradual shoulder mobility restoration"] }
        else if body_part = .left_calf then
          { acc with
            focus_areas := acc.focus_areas ++
              ["upper body flow and coordination",
               "seated Tai Chi practice",
               "breathing techniques for circulation"]
            rehabilitation_focus := acc.rehabilitation_focus ++
              ["progressive calf strengthening"] }
        else if body_part = .lower_back then
          { acc with
            focus_areas := acc.focus_areas ++
              ["core engagement and stabilization",
               "postural alignment awareness",
               "gentle weight shifting"]
            rehabilitation_focus := acc.rehabilitation_focus ++
              ["spinal stabilization and core strength"] }
        else acc
      analyze_injury_impact_aux acc rest

/-- `TaiChiCoachAgent.analyze_injury_impact` (the spec's
`deriveRestrictionSummary`). -/
def analyze_injury_impact (injuries : List (BodyPart × InjurySeverity)) :
    Option ImpactAssessment :=
  analyze_injury_impact_aux emptyImpact injuries

/-! ## Exercise selection and modification (`TaiChiCoachAgent`) -/

/-- One of the exercise dictionaries built by `_select_phase_exercises`:
category, name, base duration in minutes. -/
structure Exercise where
  category : String
  name : String
  duration : Nat
deriving DecidableEq, Repr

/-- An exercise after `_apply_injury_modifications`: the copied dictionary
with a possibly reduced duration; the source adds a `"modifications"` key
only when the list is non-empty, embedded here as the (possibly empty)
list itself. -/
structure ModifiedExercise where
  category : String
  name : String
  duration : Nat
  modifications : List String
deriving DecidableEq, Repr

/-- `TaiChiCoachAgent._select_phase_exercises`.  The source's
`injury_impact` and `week` parameters are unused by its body and omitted
here. -/
def select_phase_exercises : WorkoutPhase → List Exercise
  | .foundation =>
      [⟨"breathing", "abdominal_breathing", 5⟩,
       ⟨"warmup", "joint_rotations", 5⟩,
       ⟨"qigong", "standing_meditation", 8⟩,
       ⟨"qigong", "cloud_hands", 7⟩]
  | .building =>
      [⟨"breathing", "reverse_breathing", 5⟩,
       ⟨"warmup", "gentle_stretching", 7⟩,
       ⟨"qigong", "cloud_hands", 10⟩,
       ⟨"forms", "commencement", 8⟩,
       ⟨"forms", "ward_off", 10⟩]
  | _ =>
      [⟨"breathing", "reverse_breathing", 5⟩,
       ⟨"warmup", "gentle_stretching", 7⟩,
       ⟨"qigong", "cloud_hands", 8⟩,
       ⟨"forms", "commencement", 5⟩,
       ⟨"forms", "ward_off", 8⟩,
       ⟨"forms", "roll_back", 8⟩,
       ⟨"forms", "press", 8⟩]

/-- `any("shoulder" in restriction for restriction in restrictions)`. -/
def shoulderRestricted (restrictions : List String) : Bool :=
  restrictions.any (fun r => containsSubstr r "shoulder")

/-- `any("standing" in restriction for restriction in restrictions)`. -/
def standingRestricted (restrictions : List String) : Bool :=
  restrictions.any (fun r => containsSubstr r "standing")

/-- `any("back" in restriction.lower() for restriction in restrictions)`. -/
def backRestricted (restrictions : List String) : Bool :=
  restrictions.any (fun r => containsSubstr (lowerAscii r) "back")

/-- Loop body of `TaiChiCoachAgent._apply_injury_modifications` for one
exercise.  Note that every duration assignment in the source reads
`exercise["duration"]` — the original, unmodified duration — so a later
matching rule group overwrites the reduction of an earlier one instead of
stacking on it; the embedding keeps that behaviour. -/
def apply_modifications_to_exercise (restrictions : List String) (e : Exercise) :
    ModifiedExercise :=
  let mods0 : List String := []
  let d0 := e.duration
  let shoulderHit := shoulderRestricted restrictions &&
    ["cloud_hands", "ward_off"].contains e.name
  let mods1 := if shoulderHit then
      mods0 ++ ["keep arms below shoulder height", "reduce arm movement range by 50%"]
    else mods0
  let d1 := if shoulderHit then max 3 (e.duration - 2) else d0
  let standingHit := standingRestricted restrictions &&
    ["qigong", "forms"].contains e.category
  let mods2 := if standingHit then
      mods1 ++ ["use chair for support if needed", "shorter stance width"]
    else mods1
  let d2 := if standingHit then max 3 (e.duration - 3) else d1
  let backHit := backRestricted restrictions &&
    ["ward_off", "press"].contains e.name
  let mods3 := if backHit then
      mods2 ++ ["maintain neutral spine", "engage core throughout movement"]
    else mods2
  let d3 := if backHit then max 3 (e.duration - 2) else d2
  { category := e.category, name := e.name, duration := d3, modifications := mods3 }

/-- `TaiChiCoachAgent._apply_injury_modifications`. -/
def apply_injury_modifications (exercises : List Exercise)
    (restrictions : List String) : List ModifiedExercise :=
  exercises.map (apply_modifications_to_exercise restrictions)

/-! ## Duration, frequency, energy focus (`TaiChiCoachAgent`) -/

/-- `TaiChiCoachAgent._calculate_optimal_duration`.  The source's
`base_durations.get(phase, 15)` default is unreachable for a value of the
closed `WorkoutPhase` enumeration, since the dictionary has all four keys. -/
def calculate_optimal_duration (phase : WorkoutPhase) (week : Int)
    (restrictions : List String) : Int :=
  let base : Int :=
    match phase with
    | .foundation => 10 + week * 2
    | .building => 20 + max 0 (week - 12) * 3
    | .integration => 25 + max 0 (week - 24) * 2
    | .mastery => 30 + max 0 (week - 36) * 1
  let duration := if standingRestricted restrictions then max 10 (base - 5) else base
  min duration 60

/-- `TaiChiCoachAgent._calculate_frequency` (the `.get` default 3 is
unreachable for the closed enumeration). -/
def calculate_frequency : WorkoutPhase → Nat
  | .foundation => 3
  | .building => 4
  | .integration => 5
  | .mastery => 6

/-- `TaiChiCoachAgent._get_energy_focus` (the `.get` default
`"mind-body connection"` is unreachable for the closed enumeration). -/
def get_energy_focus : WorkoutPhase → String
  | .foundation => "grounding and centering"
  | .building => "flow and coordination"
  | .integration => "internal energy circulation"
  | .mastery => "effortless power and mindfulness"

/-- The `workout_template` dictionary returned by `generate_workout_plan`. -/
structure WorkoutPlan where
  phase : WorkoutPhase
  week : Int
  duration_minutes : Int
  frequency_per_week : Nat
  exercises : List ModifiedExercise
  precautions : List String
  modifications : List String
  focus_points : List String
  energy_focus : String
deriving DecidableEq, Repr

/-- `TaiChiCoachAgent.generate_workout_plan`: builds the plan from an
already-computed impact assessment. -/
def generate_workout_plan (phase : WorkoutPhase) (impact : ImpactAssessment)
    (week : Int) : WorkoutPlan :=
  { phase := phase
    week := week
    duration_minutes := calculate_optimal_duration phase week impact.restrictions
    frequency_per_week := calculate_frequency phase
    exercises := apply_injury_modifications (select_phase_exercises phase)
      impact.restrictions
    precautions := impact.restrictions.take 3
    modifications := impact.modifications.take 3
    focus_points := impact.focus_areas.take 2
    energy_focus := get_energy_focus phase }

/-- The plan pipeline as the spec's `generateWorkoutPlan(phase, injuries, week)`
describes it: derive the restriction summary from the raw injury profile and
feed it to `generate_workout_plan`.  The `KeyError` of the summary step
propagates as `none`. -/
def generate_workout_plan_from_injuries (phase : WorkoutPhase)
    (injuries : List (BodyPart × InjurySeverity)) (week : Int) :
    Option WorkoutPlan :=
  (analyze_injury_impact injuries).map
    (fun impact => generate_workout_plan phase impact week)

/-! ## Progress Analyzer (`ProgressTrackerAgent`) -/

/-- One row of the analyzer's `progress_data` frame, as built by
`record_session`.  The wall-clock `timestamp` column is not part of the
embedding (no claim refers to it). -/
structure ProgressRecord where
  phase : WorkoutPhase
  week : Int
  duration_minutes : Int
  pain_level : Int
  fatigue_level : Int
  mood_level : Int
  exercises_completed : Nat
  modifications_used : Nat
  completion_percentage : Int
  notes : String
deriving DecidableEq, Repr

/-- `ProgressTrackerAgent.record_session`: appends one row to the
append-only log (`pd.concat` with `ignore_index`). -/
def record_session (log : List ProgressRecord) (r : ProgressRecord) :
    List ProgressRecord :=
  log ++ [r]

/-- Arithmetic mean of an integer column, as a rational (pandas `.mean()`). -/
def ratMean (l : List Int) : ℚ :=
  (l.sum : ℚ) / (l.length : ℚ)

/-- `ProgressTrackerAgent._calculate_trend` on one column: compare the last
value of the window against the first, with a half-point dead band. -/
def calculate_trend (values : List Int) : String :=
  if values.length < 2 then "stable"
  else
    let first := values.headD 0
    let last := values.getLastD 0
    if (last : ℚ) > (first : ℚ) + 1/2 then "increasing"
    else if (last : ℚ) < (first : ℚ) - 1/2 then "decreasing"
    else "stable"

/-- `ProgressTrackerAgent._generate_recommendations`, with the running
`recommendations` list threaded exactly as the source appends to it. -/
def generate_recommendations (data : List ProgressRecord) : List String :=
  let avg_pain := ratMean (data.map (fun r => r.pain_level))
  let avg_fatigue := ratMean (data.map (fun r => r.fatigue_level))
  let completion_rate := ratMean (data.map (fun r => r.completion_percentage))
  let recs : List String := []
  let recs :=
    if avg_pain > 6 then
      recs ++ ["reduce_intensity_50_percent",
               "focus_on_breathing_exercises",
               "consult_healthcare_provider_if_persistent"]
    else if avg_pain > 4 then recs ++ ["maintain_current_intensity"]
    else recs
  let recs :=
    if avg_fatigue > 6 then
      recs ++ ["ensure_adequate_rest",
               "reduce_frequency_by_one_session",
               "focus_on_recovery_nutrition"]
    else recs
  let recs :=
    if completion_rate > 90 then recs ++ ["consider_moderate_progression"]
    else if completion_rate < 70 then recs ++ ["simplify_exercises_temporarily"]
    else recs
  if recs.isEmpty then ["continue_current_program"] else recs

/-- `ProgressTrackerAgent._identify_risk_factors`: pattern checks over the
last three rows of the window. -/
def identify_risk_factors (data : List ProgressRecord) : List String :=
  if 3 ≤ data.length then
    let recent_pain := (data.map (fun r => r.pain_level)).drop (data.length - 3)
    let recent_completion :=
      (data.map (fun r => r.completion_percentage)).drop (data.length - 3)
    (if recent_pain.all (fun pain => 5 ≤ pain) then ["persistent_moderate_pain"]
     else [])
    ++ (if recent_completion.all (fun completion => completion < 60) then
          ["consistent_low_completion"]
        else [])
  else []

/-- The non-sentinel analysis dictionary built by `analyze_trends`.  The
`consistency_score` entry is a floating-point sample-standard-deviation
computation (a square root); it is outside this rational embedding and no
claim refers to it. -/
structure TrendAnalysis where
  avg_duration : ℚ
  avg_pain : ℚ
  avg_fatigue : ℚ
  completion_rate : ℚ
  pain_trend : String
  duration_trend : String
  completion_trend : String
  recommendations : List String
  risk_factors : List String
deriving DecidableEq, Repr

/-- Result of `ProgressTrackerAgent.analyze_trends`: either the sentinel
`{"status": "no_data", "recommendations": [...]}` dictionary or the full
analysis dictionary. -/
inductive TrendResult
  | noData (status : String) (recommendations : List String)
  | report (analysis : TrendAnalysis)
deriving DecidableEq, Repr

/-- `ProgressTrackerAgent.analyze_trends`: empty-log sentinel, else the
analysis of the trailing `window_size` rows (pandas `.tail`). -/
def analyze_trends (log : List ProgressRecord) (window_size : Nat) : TrendResult :=
  if log.isEmpty then .noData "no_data" ["continue_baseline"]
  else
    let recent := log.drop (log.length - window_size)
    .report
      { avg_duration := ratMean (recent.map (fun r => r.duration_minutes))
        avg_pain := ratMean (recent.map (fun r => r.pain_level))
        avg_fatigue := ratMean (recent.map (fun r => r.fatigue_level))
        completion_rate := ratMean (recent.map (fun r => r.completion_percentage))
        pain_trend := calculate_trend (recent.map (fun r => r.pain_level))
        duration_trend := calculate_trend (recent.map (fun r => r.duration_minutes))
        completion_trend :=
          calculate_trend (recent.map (fun r => r.completion_percentage))
        recommendations := generate_recommendations recent
        risk_factors := identify_risk_factors recent }

/-! ## Safety Monitor (`SafetyMonitorAgent`) -/

/-- The per-session feedback consumed by `assess_session_safety`
(`session_data.get` defaults: pain 0, fatigue 0, completion 100). -/
structure SessionData where
  pain_level : Int
  fatigue_level : Int
  completion_percentage : Int
deriving DecidableEq, Repr

/-- The `safety_report` dictionary returned by `assess_session_safety`. -/
structure SafetyReport where
  safety_level : String
  immediate_actions : List String
  long_term_recommendations : List String
  risk_factors : List String
  clearance_for_next_session : Bool
deriving DecidableEq, Repr

/-- `SafetyMonitorAgent._analyze_safety_trends` over the retained window:
pattern checks on the last three sessions. -/
def analyze_safety_trends (history : List SessionData) : List String :=
  if history.length < 3 then []
  else
    let recent := history.drop (history.length - 3)
    let pain_levels := recent.map (fun s => s.pain_level)
    let fatigue_levels := recent.map (fun s => s.fatigue_level)
    (if (pain_levels.zip pain_levels.tail).all (fun p => p.1 < p.2) then
       ["INCREASING_PAIN_TREND"]
     else [])
    ++ (if fatigue_levels.all (fun fatigue => 6 ≤ fatigue) then
          ["PERSISTENT_HIGH_FATIGUE"]
        else [])

/-- `SafetyMonitorAgent.assess_session_safety`, with the mutable
`self.session_history` threaded explicitly: takes the retained window
before the call, returns the report together with the window after the
call (append, then `pop(0)` when more than 5 entries are held — the
source's thresholds are pain red 7, pain yellow 4, fatigue red 8,
completion minimum 50).  The source's fatigue branch assigns
`"red" if level != "red" else "red"`; the conditional is kept verbatim. -/
def assess_session_safety (history : List SessionData) (s : SessionData) :
    SafetyReport × List SessionData :=
  let report : SafetyReport :=
    { safety_level := "green", immediate_actions := []
      long_term_recommendations := [], risk_factors := []
      clearance_for_next_session := true }
  let report :=
    if s.pain_level ≥ 7 then
      { report with
        safety_level := "red"
        immediate_actions := report.immediate_actions ++
          ["STOP_ALL_ACTIVITY_IMMEDIATELY",
           "REST_UNTIL_PAIN_SUBSIDES",
           "CONSULT_HEALTHCARE_PROVIDER"]
        clearance_for_next_session := false }
    else if s.pain_level ≥ 4 then
      { report with
        safety_level := "yellow"
        immediate_actions := report.immediate_actions ++
          ["REDUCE_INTENSITY_BY_50_PERCENT",
           "FOCUS_ON_BREATHING_EXERCISES",
           "MONITOR_PAIN_CLOSELY"] }
    else report
  let report :=
    if s.fatigue_level ≥ 8 then
      { report with
        safety_level := if report.safety_level ≠ "red" then "red" else "red"
        immediate_actions := report.immediate_actions ++
          ["REQUIRE_COMPLETE_REST_DAY"]
        long_term_recommendations := report.long_term_recommendations ++
          ["REVIEW_SLEEP_AND_RECOVERY"] }
    else report
  let report :=
    if s.completion_percentage < 50 then
      { report with
        risk_factors := report.risk_factors ++ ["LOW_COMPLETION_RATE"]
        long_term_recommendations := report.long_term_recommendations ++
          ["SIMPLIFY_WORKOUT_COMPLEXITY"] }
    else report
  let history := history ++ [s]
  let history := if history.length > 5 then history.drop 1 else history
  let report :=
    { report with risk_factors := report.risk_factors ++ analyze_safety_trends history }
  (report, history)

/-- The safety report of a session assessed against a given prior window. -/
def assessReport (history : List SessionData) (s : SessionData) : SafetyReport :=
  (assess_session_safety history s).1

/-- The retained window after a sequence of `assess_session_safety` calls
starting from a fresh monitor (`session_history = []`). -/
def monitorHistory (sessions : List SessionData) : List SessionData :=
  sessions.foldl (fun h s => (assess_session_safety h s).2) []

/-- The analyzer log after a sequence of `record_session` calls starting
from a fresh tracker (`progress_data` empty). -/
def analyzerLog (records : List ProgressRecord) : List ProgressRecord :=
  records.foldl record_session []

/-- The `guidelines` dictionary returned by `generate_safety_guidelines`. -/
structure SafetyGuidelines where
  daily_precautions : List String
  warning_signs : List String
  emergency_procedures : List String
deriving DecidableEq, Repr

/-- The constant emergency-procedure list assigned after the loop of
`generate_safety_guidelines`. -/
def emergencyProcedures : List String :=
  ["Stop immediately if severe pain occurs",
   "Apply ice to injured area",
   "Contact healthcare provider if symptoms persist",
   "Rest completely until professional assessment"]

/-- Loop of `SafetyMonitorAgent.generate_safety_guidelines` over the
profile: only the two shoulders, the left calf and the lower back match a
branch; every other body part falls through silently. -/
def safety_guidelines_aux :
    SafetyGuidelines → List (BodyPart × InjurySeverity) → SafetyGuidelines
  | acc, [] => acc
  | acc, (body_part, _) :: rest =>
    let acc :=
      if body_part = .left_shoulder ∨ body_part = .right_shoulder then
        { acc with
          daily_precautions := acc.daily_precautions ++
            ["Avoid raising arms above shoulder level",
             "Use mirror to monitor posture alignment",
             "Stop immediately if sharp shoulder pain occurs"]
          warning_signs := acc.warning_signs ++ ["Radiating pain down the arm"] }
      else if body_part = .left_calf then
        { acc with
          daily_precautions := acc.daily_precautions ++
            ["Have chair available for support",
             "Monitor for swelling after exercise",
             "Ice calf if any discomfort occurs"]
          warning_signs := acc.warning_signs ++
            ["Sharp pain during weight bearing"] }
      else if body_part = .lower_back then
        { acc with
          daily_precautions := acc.daily_precautions ++
            ["Maintain neutral spine during all movements",
             "Engage core muscles before moving",
             "Avoid sudden twisting motions"]
          warning_signs := acc.warning_signs ++
            ["Numbness or tingling in legs"] }
      else acc
    safety_guidelines_aux acc rest

/-- `SafetyMonitorAgent.generate_safety_guidelines`: the per-body-part
loop followed by the unconditional assignment of the fixed
emergency-procedure list. -/
def generate_safety_guidelines (injuries : List (BodyPart × InjurySeverity)) :
    SafetyGuidelines :=
  let guidelines := safety_guidelines_aux
    { daily_precautions := [], warning_signs := [], emergency_procedures := [] }
    injuries
  { guidelines with emergency_procedures := emergencyProcedures }

/-! ## Program Coordinator (modelled from the spec)

`main.py` and `examples/basic_usage.py` drive a `TaiChiProgram` class from
`core/program_manager.py`, a file that is not part of the repository
sources.  The definitions below are therefore modelled from the
specification rather than translated from code. -/

/-- Modelled from the spec: phase as a pure function of the week, with the
fixed boundaries Foundation 1–12, Building 13–24, Integration 25–36,
Mastery 37–52 (§3 ProgramState, §4.5).  The source of `TaiChiProgram`
(`core/program_manager.py`) is missing from the repository. -/
def phaseForWeek (week : Nat) : WorkoutPhase :=
  if week ≤ 12 then .foundation
  else if week ≤ 24 then .building
  else if week ≤ 36 then .integration
  else .mastery

/-- Modelled from the spec: the Coordinator's own state is its current
week (§4.5 of the spec; `core/program_manager.py` is missing from the
repository). -/
structure ProgramState where
  current_week : Nat
deriving DecidableEq, Repr

/-- Modelled from the spec: initial state week = 1 (§4.5). -/
def initialProgram : ProgramState :=
  { current_week := 1 }

/-- Modelled from the spec: the week/phase transition of
`completeSession` — increment the week by 1, clamped at 52 (§4.5; the
analyzer/monitor side effects are the explicit-state functions above). -/
def completeSessionStep (s : ProgramState) : ProgramState :=
  { current_week := min 52 (s.current_week + 1) }

/-- Modelled from the spec: the phase reported for a state (§4.5). -/
def currentPhase (s : ProgramState) : WorkoutPhase :=
  phaseForWeek s.current_week

/-- Modelled from the spec: the state after `n` completed sessions. -/
def run_sessions : Nat → ProgramState → ProgramState
  | 0, s => s
  | n + 1, s => run_sessions n (completeSessionStep s)

/-! ## Theorems -/

/-- C1 (counterexample to the claim as stated): `cloud_hands` from the
Foundation base list (base duration 7) against a summary matching both the
shoulder group (reduction 2) and the standing group (reduction 3) keeps
duration 4, not the claimed `max 3 (7 - (2 + 3)) = 3`: the source
recomputes each reduction from the original duration, so the reductions do
not sum. -/
theorem C1_counterexample :
    (⟨"qigong", "cloud_hands", 7⟩ : Exercise) ∈
      select_phase_exercises .foundation ∧
    (apply_modifications_to_exercise
      ["shoulder rotations (moderate)", "prolonged standing (moderate)"]
      ⟨"qigong", "cloud_hands", 7⟩).duration = 4 ∧
    (apply_modifications_to_exercise
      ["shoulder rotations (moderate)", "prolonged standing (moderate)"]
      ⟨"qigong", "cloud_hands", 7⟩).duration ≠ max 3 (7 - (2 + 3)) := by
  refine ⟨by decide, by decide, by decide⟩

/-- C1 (amended): for every exercise of a phase's base list and every
restriction summary, the final duration equals the base duration reduced
by the reduction of the *last* rule group that matches, in the source's
check order shoulder, standing, back (each group recomputes from the base
duration, so a later matching group overwrites an earlier one), floored at
3; and the modification strings of every matched group are appended in
order. -/
theorem C1_apply_modifications (phase : WorkoutPhase) (restrictions : List String)
    (e : Exercise) (_he : e ∈ select_phase_exercises phase) :
    (apply_modifications_to_exercise restrictions e).duration =
      (if backRestricted restrictions && ["ward_off", "press"].contains e.name then
        max 3 (e.duration - 2)
       else if standingRestricted restrictions &&
           ["qigong", "forms"].contains e.category then
        max 3 (e.duration - 3)
       else if shoulderRestricted restrictions &&
           ["cloud_hands", "ward_off"].contains e.name then
        max 3 (e.duration - 2)
       else e.duration) ∧
    (apply_modifications_to_exercise restrictions e).modifications =
      (if shoulderRestricted restrictions &&
          ["cloud_hands", "ward_off"].contains e.name then
        ["keep arms below shoulder height", "reduce arm movement range by 50%"]
       else [])
      ++ (if standingRestricted restrictions &&
            ["qigong", "forms"].contains e.category then
           ["use chair for support if needed", "shorter stance width"]
          else [])
      ++ (if backRestricted restrictions && ["ward_off", "press"].contains e.name then
           ["maintain neutral spine", "engage core throughout movement"]
          else []) := by
  simp only [apply_modifications_to_exercise]
  cases hs : shoulderRestricted restrictions &&
      ["cloud_hands", "ward_off"].contains e.name <;>
    cases ht : standingRestricted restrictions &&
        ["qigong", "forms"].contains e.category <;>
      cases hb : backRestricted restrictions && ["ward_off", "press"].contains e.name <;>
        simp [hs, ht, hb]

/-- C1 witness: the amended characterisation applied to the
counterexample's input. -/
theorem C1_witness :
    (⟨"qigong", "cloud_hands", 7⟩ : Exercise) ∈
      select_phase_exercises .foundation ∧
    ((apply_modifications_to_exercise
        ["shoulder rotations (moderate)", "prolonged standing (moderate)"]
        ⟨"qigong", "cloud_hands", 7⟩).duration =
      (if backRestricted
            ["shoulder rotations (moderate)", "prolonged standing (moderate)"] &&
          ["ward_off", "press"].contains "cloud_hands" then
        max 3 (7 - 2)
       else if standingRestricted
            ["shoulder rotations (moderate)", "prolonged standing (moderate)"] &&
          ["qigong", "forms"].contains "qigong" then
        max 3 (7 - 3)
       else if shoulderRestricted
            ["shoulder rotations (moderate)", "prolonged standing (moderate)"] &&
          ["cloud_hands", "ward_off"].contains "cloud_hands" then
        max 3 (7 - 2)
       else 7) ∧
     (apply_modifications_to_exercise
        ["shoulder rotations (moderate)", "prolonged standing (moderate)"]
        ⟨"qigong", "cloud_hands", 7⟩).modifications =
      (if shoulderRestricted
            ["shoulder rotations (moderate)", "prolonged standing (moderate)"] &&
          ["cloud_hands", "ward_off"].contains "cloud_hands" then
        ["keep arms below shoulder height", "reduce arm movement range by 50%"]
       else [])
      ++ (if standingRestricted
              ["shoulder rotations (moderate)", "prolonged standing (moderate)"] &&
            ["qigong", "forms"].contains "qigong" then
           ["use chair for support if needed", "shorter stance width"]
          else [])
      ++ (if backRestricted
              ["shoulder rotations (moderate)", "prolonged standing (moderate)"] &&
            ["ward_off", "press"].contains "cloud_hands" then
           ["maintain neutral spine", "engage core throughout movement"]
          else [])) :=
  ⟨by decide,
   C1_apply_modifications .foundation
     ["shoulder rotations (moderate)", "prolonged standing (moderate)"]
     ⟨"qigong", "cloud_hands", 7⟩ (by decide)⟩

/-- C2: the plan pipeline is not total over the closed `BodyPart`
enumeration — the restriction-summary step fails (Python `KeyError`) for
each of neck, hips, upper back and right calf, so no plan is produced for
a profile containing any of them. -/
theorem C2_plan_generation_fails :
    analyze_injury_impact [(BodyPart.neck, InjurySeverity.mild)] = none ∧
    analyze_injury_impact [(BodyPart.hips, InjurySeverity.moderate)] = none ∧
    analyze_injury_impact [(BodyPart.upper_back, InjurySeverity.severe)] = none ∧
    analyze_injury_impact [(BodyPart.right_calf, InjurySeverity.mild)] = none ∧
    generate_workout_plan_from_injuries .foundation
      [(BodyPart.neck, InjurySeverity.mild)] 1 = none := by
  refine ⟨rfl, rfl, rfl, rfl, rfl⟩

/-- C3 (counterexample to the claim as stated): pain 3, fatigue 9,
completion 95 yields safety level red with clearance still `true` — the
fatigue branch escalates the level but never touches the clearance flag. -/
theorem C3_counterexample :
    (assessReport [] ⟨3, 9, 95⟩).safety_level = "red" ∧
    (assessReport [] ⟨3, 9, 95⟩).clearance_for_next_session = true := by
  refine ⟨by decide, by decide⟩

/-- C3 (amended): clearance is withdrawn exactly when the pain-derived
level is red (pain ≥ 7); a red level forced by fatigue alone leaves
clearance `true`, and a yellow level always has clearance `true`. -/
theorem C3_clearance (history : List SessionData) (s : SessionData) :
    ((assessReport history s).clearance_for_next_session = false ↔
      7 ≤ s.pain_level) ∧
    ((assessReport history s).safety_level = "yellow" →
      (assessReport history s).clearance_for_next_session = true) := by
  simp only [assessReport, assess_session_safety]
  split_ifs <;> simp_all

/-- C3 witness: the amended statement applied at pain 5, fatigue 2,
completion 80 — a yellow session keeps clearance. -/
theorem C3_witness :
    (assessReport [] ⟨5, 2, 80⟩).clearance_for_next_session = true :=
  (C3_clearance [] ⟨5, 2, 80⟩).2 (by decide)

/-- C4: single-session thresholds of `assess_session_safety` — pain ≥ 7
gives red with the stop-activity action; pain in [4, 7) with no fatigue
override gives yellow; fatigue ≥ 8 forces red and appends the rest-day
action whatever the pain-derived level; completion below 50 contributes
the low-completion risk tag and changes neither the level, the clearance,
nor the immediate actions. -/
theorem C4_thresholds (history : List SessionData) (p f c : Int) :
    (7 ≤ p → (assessReport history ⟨p, f, c⟩).safety_level = "red" ∧
      "STOP_ALL_ACTIVITY_IMMEDIATELY" ∈
        (assessReport history ⟨p, f, c⟩).immediate_actions) ∧
    (4 ≤ p → p < 7 → f < 8 →
      (assessReport history ⟨p, f, c⟩).safety_level = "yellow") ∧
    (8 ≤ f → (assessReport history ⟨p, f, c⟩).safety_level = "red" ∧
      "REQUIRE_COMPLETE_REST_DAY" ∈
        (assessReport history ⟨p, f, c⟩).immediate_actions) ∧
    (c < 50 → "LOW_COMPLETION_RATE" ∈
      (assessReport history ⟨p, f, c⟩).risk_factors) ∧
    (assessReport history ⟨p, f, c⟩).safety_level =
      (assessReport history ⟨p, f, 100⟩).safety_level ∧
    (assessReport history ⟨p, f, c⟩).clearance_for_next_session =
      (assessReport history ⟨p, f, 100⟩).clearance_for_next_session ∧
    (assessReport history ⟨p, f, c⟩).immediate_actions =
      (assessReport history ⟨p, f, 100⟩).immediate_actions := by
  simp only [assessReport, assess_session_safety]
  split_ifs <;> simp_all

/-- C4 witness: the spec's first worked example — pain 8, fatigue 3,
completion 60 is red with the stop-activity action. -/
theorem C4_witness :
    (assessReport [] ⟨8, 3, 60⟩).safety_level = "red" ∧
    "STOP_ALL_ACTIVITY_IMMEDIATELY" ∈
      (assessReport [] ⟨8, 3, 60⟩).immediate_actions :=
  (C4_thresholds [] 8 3 60).1 (by decide)

/-- C5: for every phase, week ≥ 1 and restriction summary the computed
duration lies in [10, 60]; and, absent any restriction mentioning
"standing", the duration is monotonically non-decreasing in the week
within a fixed phase. -/
theorem C5_duration_bounds_monotone (phase : WorkoutPhase) (week week' : Int)
    (restrictions : List String) (h1 : 1 ≤ week) (h2 : week ≤ week') :
    (10 ≤ calculate_optimal_duration phase week restrictions ∧
      calculate_optimal_duration phase week restrictions ≤ 60) ∧
    (standingRestricted restrictions = false →
      calculate_optimal_duration phase week restrictions ≤
        calculate_optimal_duration phase week' restrictions) := by
  constructor
  · cases phase <;>
      simp only [calculate_optimal_duration, min_def, max_def] <;>
      split_ifs <;> omega
  · intro hs
    cases phase <;>
      simp only [calculate_optimal_duration, hs, Bool.false_eq_true, if_false,
        min_def, max_def] <;>
      split_ifs <;> omega

/-- C5 witness: the statement at phase Foundation, weeks 1 and 2, with an
empty restriction summary. -/
theorem C5_witness :
    (10 ≤ calculate_optimal_duration .foundation 1 [] ∧
      calculate_optimal_duration .foundation 1 [] ≤ 60) ∧
    (standingRestricted [] = false →
      calculate_optimal_duration .foundation 1 [] ≤
        calculate_optimal_duration .foundation 2 []) :=
  C5_duration_bounds_monotone .foundation 1 2 [] (by decide) (by decide)

/-- C6: the Coordinator state machine (modelled from the spec, its source
file being absent) starts at week 1 in phase Foundation, advances the week
by exactly 1 per completed session clamped at 52, derives the phase purely
from the week with the boundaries Foundation 1–12, Building 13–24,
Integration 25–36 and Mastery 37–52, and reaches week 13 in phase Building
after 12 completed sessions. -/
theorem C6_coordinator (s : ProgramState) (w : Nat) :
    initialProgram.current_week = 1 ∧
    currentPhase initialProgram = .foundation ∧
    (completeSessionStep s).current_week = min 52 (s.current_week + 1) ∧
    currentPhase s = phaseForWeek s.current_week ∧
    (1 ≤ w → w ≤ 12 → phaseForWeek w = .foundation) ∧
    (13 ≤ w → w ≤ 24 → phaseForWeek w = .building) ∧
    (25 ≤ w → w ≤ 36 → phaseForWeek w = .integration) ∧
    (37 ≤ w → w ≤ 52 → phaseForWeek w = .mastery) ∧
    (run_sessions 12 initialProgram).current_week = 13 ∧
    currentPhase (run_sessions 12 initialProgram) = .building := by
  refine ⟨rfl, rfl, rfl, rfl, ?_, ?_, ?_, ?_, by decide, by decide⟩ <;>
    · intro ha hb
      simp only [phaseForWeek]
      split_ifs <;> first | rfl | omega

/-- C6 witness: the boundary clause applied at week 13. -/
theorem C6_witness : phaseForWeek 13 = .building :=
  (C6_coordinator initialProgram 13).2.2.2.2.2.1 (by decide) (by decide)

/-- C7: on a non-empty analysis window the recommendation list is exactly
the concatenation of the fired threshold rules — mean pain above 6 fires
the three intensity/breathing/consult tags (and then the maintain tag is
not emitted), else mean pain above 4 fires the maintain tag; mean fatigue
above 6 fires the three rest tags; mean completion above 90 fires the
progression tag and below 70 the simplify tag — with the single
`"continue_current_program"` tag exactly when no rule fires. -/
theorem C7_recommendations (data : List ProgressRecord) (_hd : data ≠ []) :
    generate_recommendations data =
      (let fired :=
        (if ratMean (data.map (fun r => r.pain_level)) > 6 then
          ["reduce_intensity_50_percent",
           "focus_on_breathing_exercises",
           "consult_healthcare_provider_if_persistent"]
         else if ratMean (data.map (fun r => r.pain_level)) > 4 then
          ["maintain_current_intensity"]
         else [])
        ++ (if ratMean (data.map (fun r => r.fatigue_level)) > 6 then
             ["ensure_adequate_rest",
              "reduce_frequency_by_one_session",
              "focus_on_recovery_nutrition"]
            else [])
        ++ (if ratMean (data.map (fun r => r.completion_percentage)) > 90 then
             ["consider_moderate_progression"]
            else if ratMean (data.map (fun r => r.completion_percentage)) < 70 then
             ["simplify_exercises_temporarily"]
            else []);
       if fired = [] then ["continue_current_program"] else fired) := by
  simp only [generate_recommendations]
  split_ifs <;> simp_all

/-- C7 witness: a one-session window with no fired rule yields exactly the
continue tag. -/
theorem C7_witness :
    ([(⟨.foundation, 1, 15, 0, 0, 5, 4, 0, 80, ""⟩ : ProgressRecord)] ≠ []) ∧
    generate_recommendations [⟨.foundation, 1, 15, 0, 0, 5, 4, 0, 80, ""⟩] =
      (let fired :=
        (if ratMean ([(⟨.foundation, 1, 15, 0, 0, 5, 4, 0, 80, ""⟩ :
              ProgressRecord)].map (fun r => r.pain_level)) > 6 then
          ["reduce_intensity_50_percent",
           "focus_on_breathing_exercises",
           "consult_healthcare_provider_if_persistent"]
         else if ratMean ([(⟨.foundation, 1, 15, 0, 0, 5, 4, 0, 80, ""⟩ :
              ProgressRecord)].map (fun r => r.pain_level)) > 4 then
          ["maintain_current_intensity"]
         else [])
        ++ (if ratMean ([(⟨.foundation, 1, 15, 0, 0, 5, 4, 0, 80, ""⟩ :
              ProgressRecord)].map (fun r => r.fatigue_level)) > 6 then
             ["ensure_adequate_rest",
              "reduce_frequency_by_one_session",
              "focus_on_recovery_nutrition"]
            else [])
        ++ (if ratMean ([(⟨.foundation, 1, 15, 0, 0, 5, 4, 0, 80, ""⟩ :
              ProgressRecord)].map (fun r => r.completion_percentage)) > 90 then
             ["consider_moderate_progression"]
            else if ratMean ([(⟨.foundation, 1, 15, 0, 0, 5, 4, 0, 80, ""⟩ :
                 ProgressRecord)].map (fun r => r.completion_percentage)) < 70 then
             ["simplify_exercises_temporarily"]
            else []);
       if fired = [] then ["continue_current_program"] else fired) :=
  ⟨by simp, C7_recommendations [⟨.foundation, 1, 15, 0, 0, 5, 4, 0, 80, ""⟩]
    (by simp)⟩

/-- C8: `analyze_trends` on the empty log returns the sentinel report with
status `"no_data"` and the single recommendation `"continue_baseline"`,
for every window size. -/
theorem C8_empty_log (window_size : Nat) :
    analyze_trends [] window_size =
      .noData "no_data" ["continue_baseline"] := rfl

/-- The retained window evolves by append-then-trim: helper equation for
the second component of `assess_session_safety`. -/
theorem monitor_step_eq (h : List SessionData) (s : SessionData) :
    (assess_session_safety h s).2 =
      if (h ++ [s]).length > 5 then (h ++ [s]).drop 1 else h ++ [s] := rfl

/-- After any call sequence from a fresh monitor the retained window is
the ≤ 5-element suffix of the inputs, in arrival order. -/
theorem monitorHistory_eq (l : List SessionData) :
    monitorHistory l = l.drop (l.length - 5) := by
  induction l using List.reverseRecOn with
  | nil => rfl
  | append_singleton l s ih =>
    rw [monitorHistory, List.foldl_append, List.foldl_cons, List.foldl_nil,
      ← monitorHistory, ih, monitor_step_eq]
    by_cases h5 : l.length ≤ 4
    · have h0 : l.length - 5 = 0 := by omega
      rw [h0, List.drop_zero,
        if_neg (by simp only [List.length_append, List.length_singleton]; omega)]
      have h0' : (l ++ [s]).length - 5 = 0 := by
        simp only [List.length_append, List.length_singleton]; omega
      rw [h0', List.drop_zero]
    · have hlen : (l.drop (l.length - 5)).length = 5 := by
        rw [List.length_drop]; omega
      rw [if_pos (by
        simp only [List.length_append, List.length_singleton, hlen]; omega)]
      rw [List.drop_append_of_le_length (by omega : 1 ≤ (l.drop (l.length - 5)).length),
        List.drop_drop]
      have hidx : l.length - 5 + 1 = (l ++ [s]).length - 5 := by
        simp only [List.length_append, List.length_singleton]; omega
      rw [hidx,
        List.drop_append_of_le_length (by
          simp only [List.length_append, List.length_singleton]; omega)]

/-- The analyzer log is pure append: a fresh tracker fed a record sequence
holds exactly that sequence. -/
theorem analyzerLog_eq (records : List ProgressRecord) :
    analyzerLog records = records := by
  induction records using List.reverseRecOn with
  | nil => rfl
  | append_singleton l r ih =>
    rw [analyzerLog, List.foldl_append, List.foldl_cons, List.foldl_nil,
      ← analyzerLog, ih, record_session]

/-- C9: after every sequence of safety assessments from a fresh monitor
the retained session history is exactly the most recent (at most 5)
sessions in arrival order — the older ones evicted first — while the
Progress Analyzer's log, fed the same way, is unbounded and keeps every
record. -/
theorem C9_monitor_window (sessions : List SessionData)
    (records : List ProgressRecord) :
    monitorHistory sessions = sessions.drop (sessions.length - 5) ∧
    (monitorHistory sessions).length ≤ 5 ∧
    analyzerLog records = records ∧
    (analyzerLog records).length = records.length := by
  refine ⟨monitorHistory_eq sessions, ?_, analyzerLog_eq records, ?_⟩
  · rw [monitorHistory_eq, List.length_drop]; omega
  · rw [analyzerLog_eq]

/-- Unhandled body parts leave the guideline accumulator untouched:
helper for the loop of `generate_safety_guidelines`. -/
theorem safety_guidelines_aux_skips (injuries : List (BodyPart × InjurySeverity))
    (acc : SafetyGuidelines)
    (hp : ∀ p ∈ injuries, p.1 = BodyPart.neck ∨ p.1 = BodyPart.hips ∨
      p.1 = BodyPart.upper_back ∨ p.1 = BodyPart.right_calf) :
    safety_guidelines_aux acc injuries = acc := by
  induction injuries generalizing acc with
  | nil => rfl
  | cons hd tl ih =>
    obtain ⟨bp, sev⟩ := hd
    have hbp := hp (bp, sev) (List.mem_cons_self _ _)
    simp only at hbp
    rw [safety_guidelines_aux]
    rcases hbp with h | h | h | h <;>
      subst h <;>
      simp only [reduceCtorEq, or_self, if_false, if_neg] <;>
      exact ih _ (fun p hq => hp p (List.mem_cons_of_mem _ hq))

/-- C10: a profile containing only neck, hips, upper back or right calf is
silently skipped by `generate_safety_guidelines` — empty daily precautions
and warning signs — while every profile whatsoever gets the same fixed
4-element emergency-procedure list; in contrast the plan pipeline has no
handling at all for those body parts: its restriction-summary step fails
on any non-empty such profile. -/
theorem C10_guidelines (injuries injuries2 : List (BodyPart × InjurySeverity))
    (hp : ∀ p ∈ injuries, p.1 = BodyPart.neck ∨ p.1 = BodyPart.hips ∨
      p.1 = BodyPart.upper_back ∨ p.1 = BodyPart.right_calf) :
    (generate_safety_guidelines injuries).daily_precautions = [] ∧
    (generate_safety_guidelines injuries).warning_signs = [] ∧
    (generate_safety_guidelines injuries2).emergency_procedures =
      emergencyProcedures ∧
    (injuries ≠ [] → analyze_injury_impact injuries = none) := by
  refine ⟨?_, ?_, rfl, ?_⟩
  · simp only [generate_safety_guidelines, safety_guidelines_aux_skips _ _ hp]
  · simp only [generate_safety_guidelines, safety_guidelines_aux_skips _ _ hp]
  · intro hne
    obtain ⟨⟨bp, sev⟩, tl, rfl⟩ : ∃ hd tl, injuries = hd :: tl := by
      cases injuries with
      | nil => exact absurd rfl hne
      | cons hd tl => exact ⟨hd, tl, rfl⟩
    have hbp := hp (bp, sev) (List.mem_cons_self _ _)
    simp only at hbp
    rw [analyze_injury_impact, analyze_injury_impact_aux]
    rcases hbp with h | h | h | h <;> subst h <;> rfl

/-- C10 witness: the statement at a neck-only profile and a
shoulder-injury profile. -/
theorem C10_witness :
    (generate_safety_guidelines
      [(BodyPart.neck, InjurySeverity.mild)]).daily_precautions = [] ∧
    (generate_safety_guidelines
      [(BodyPart.neck, InjurySeverity.mild)]).warning_signs = [] ∧
    (generate_safety_guidelines
      [(BodyPart.left_shoulder, InjurySeverity.severe)]).emergency_procedures =
      emergencyProcedures ∧
    ([(BodyPart.neck, InjurySeverity.mild)] ≠
        ([] : List (BodyPart × InjurySeverity)) →
      analyze_injury_impact [(BodyPart.neck, InjurySeverity.mild)] = none) :=
  C10_guidelines [(BodyPart.neck, InjurySeverity.mild)]
    [(BodyPart.left_shoulder, InjurySeverity.severe)] (by decide)

end TaiChiAI
